import Mathlib

/-!
Verification of the SAF-T (PT) data-model, mapping, XML-generation and
XSD-validation pipeline.

The Python sources are shallowly embedded:
* `models.py` primitive constrained types become executable `Bool` validity
  functions over explicit value representations (`PyDate`, `PyDecimal`,
  `String`, `Int`);
* pydantic model classes become Lean structures holding the raw field values,
  with a separate executable validation function reproducing the field-level
  checks and the cross-field validators;
* `mapping.py`'s `apply_mapping` becomes a recursive function over rows,
  with entity construction abstracted as an `Option`-valued validator
  (pydantic's `model_validate` either yields an instance or fails);
* `xsd_validator.py`'s `validate_saft_xml` becomes a function of an
  environment recording the outcomes lxml can produce (schema load, XML
  parse, schema check with an error log);
* the decimal lexicalization performed by `generate_saft_xml`
  (pydantic `model_dump` keeps `Decimal` values, `xmltodict.unparse`
  renders them with Python's `str`) becomes `pyDecimalStr`.
-/

namespace SAFT

/-- A calendar date as carried by Python `datetime.date` values. -/
structure PyDate where
  year : Nat
  month : Nat
  day : Nat
deriving DecidableEq

/-- Strict lexicographic order on dates, as Python compares `date` values. -/
def dateLt (a b : PyDate) : Bool :=
  a.year < b.year ∨ (a.year = b.year ∧ (a.month < b.month ∨ (a.month = b.month ∧ a.day < b.day)))

/-- Non-strict lexicographic order on dates. -/
def dateLe (a b : PyDate) : Bool :=
  a = b ∨ dateLt a b

/-- A Python `decimal.Decimal` value: coefficient and non-negative scale, the
represented number being `coeff / 10 ^ scale`.  `Decimal("0.00")` is
`⟨0, 2⟩` while `Decimal("0")` is `⟨0, 0⟩`: the stored scale matters for
`str`, exactly as in Python. -/
structure PyDecimal where
  coeff : Int
  scale : Nat
deriving DecidableEq

/-- `models.py` `check_length`: length of the string lies in
`[min_length, max_length]`. -/
def checkLength (value : String) (maxLength : Nat) (minLength : Nat) : Bool :=
  minLength ≤ value.length ∧ value.length ≤ maxLength

/-- `models.py` `SAFmonetaryType = condecimal(ge=Decimal('0.00'), decimal_places=2)`:
non-negative, at most two decimal places. -/
def monetaryValid (d : PyDecimal) : Bool :=
  0 ≤ d.coeff ∧ d.scale ≤ 2

/-- `models.py` `SAFPTDateSpan.validate`: the date lies in
[2000-01-01, 9999-12-31]. -/
def dateSpanValid (d : PyDate) : Bool :=
  dateLe ⟨2000, 1, 1⟩ d ∧ dateLe d ⟨9999, 12, 31⟩

/-- `models.py` `SAFPTPortugueseVatNumber.validate`: an integer in
[100000000, 999999999]. -/
def portugueseVatValid (value : Int) : Bool :=
  100000000 ≤ value ∧ value ≤ 999999999

/-- `models.py` `SAFPTGLAccountID.validate`: no caret character, length 2..30. -/
def glAccountIdValid (value : String) : Bool :=
  !(value.toList.contains '^') ∧ checkLength value 30 2

/-- `models.py` `AuditFileVersion.validate`. -/
def auditFileVersionValid (value : String) : Bool :=
  value = "1.04_01"

/-- `models.py` `CurrencyPT.validate`. -/
def currencyPTValid (value : String) : Bool :=
  value = "EUR"

/-- `models.py` `CountryType.validate`: two uppercase alphabetic characters
(ISO 3166-1 alpha-2). -/
def countryTypeValid (value : String) : Bool :=
  value.length = 2 ∧ value.toList.all (fun c => c.isAlpha) ∧ value.toList.all (fun c => c.isUpper)

/-- `models.py` `CustomerCountry.validate`: a country code or the literal
"Desconhecido". -/
def customerCountryValid (value : String) : Bool :=
  value = "Desconhecido" ∨ countryTypeValid value

/-- A character allowed in the tail of the `CompanyID` alternative pattern:
a digit or a slash. -/
def isDigitOrSlash (c : Char) : Bool :=
  c.isDigit || c == '/'

/-- One candidate split of the regex `<prefix> <digits-or-slashes>` at position
`i`: the character at `i` is the separating space, the prefix is non-empty and
free of the forbidden character `bad`, the suffix is non-empty and consists of
digits and slashes. -/
def companyIdSplitAt (bad : Char) (cs : List Char) (i : Nat) : Bool :=
  decide (cs.get? i = some ' ')
    && !(cs.take i).isEmpty && !(cs.take i).contains bad
    && !(cs.drop (i + 1)).isEmpty && (cs.drop (i + 1)).all isDigitOrSlash

/-- Full match of `models.py`'s `CompanyIDType` regex
`([0-9]{9})|([^^]+ [0-9/]+)`: either nine digits, or a caret-free prefix,
a space and a non-empty run of digits and slashes. -/
def companyIdPatternModels (value : String) : Bool :=
  let cs := value.toList
  (cs.length = 9 ∧ cs.all Char.isDigit)
    ∨ (List.range cs.length).any (companyIdSplitAt '^' cs)

/-- `models.py` `CompanyIDType.validate`: the pattern above plus length 1..50. -/
def companyIdValidModels (value : String) : Bool :=
  companyIdPatternModels value ∧ checkLength value 50 1

/-- `models.py` `ProductIDType.validate`: contains a slash, does not start or
end with one, length 3..255. -/
def productIdValidModels (value : String) : Bool :=
  value.toList.contains '/' ∧ !(value.toList.head? == some '/')
    ∧ !(value.toList.getLast? == some '/') ∧ checkLength value 255 3

/-- `models.py` `SAFPTTaxonomyCode.validate`: an integer in [1, 999]. -/
def taxonomyCodeValid (value : Int) : Bool :=
  1 ≤ value ∧ value ≤ 999

/-- `models.py` `TaxTableEntryTaxCode.validate`: length 1..10, and either one
of the listed literals or alphanumeric-and-dot characters only. -/
def taxTableEntryTaxCodeValid (value : String) : Bool :=
  checkLength value 10 1
    ∧ (value ∈ ["RED", "INT", "NOR", "ISE", "OUT", "NS", "NA"]
        ∨ value.toList.all (fun c => c.isAlphanum || c == '.'))

/-- `models.py` `SAFPTAccountingPeriod.validate`: an integer in [1, 16]. -/
def accountingPeriodValid (value : Int) : Bool :=
  1 ≤ value ∧ value ≤ 16

/-- `models.py` `SAFPTJournalID.validate`: no spaces, length 1..30. -/
def journalIdValid (value : String) : Bool :=
  !(value.toList.contains ' ') ∧ checkLength value 30 1

/-- `models.py` `SAFTPTDocArchivalNumber.validate`: no spaces, length 1..20. -/
def docArchivalNumberValid (value : String) : Bool :=
  !(value.toList.contains ' ') ∧ checkLength value 20 1

/-- The `TaxAccountingBasisEnum` literal values C, E, F, I, P, R, S, T. -/
inductive TaxAccountingBasis where
  | C | E | F | I | P | R | S | T
deriving DecidableEq

/-- The `GroupingCategoryEnum` literal values. -/
inductive GroupingCategory where
  | GR | GA | GM | AR | AA | AM
deriving DecidableEq

/-- The code value of a grouping category, as used in error messages. -/
def GroupingCategory.valueStr : GroupingCategory → String
  | .GR => "GR" | .GA => "GA" | .GM => "GM"
  | .AR => "AR" | .AA => "AA" | .AM => "AM"

/-- The `TaxonomyReferenceEnum` literal values. -/
inductive TaxonomyReference where
  | S | M | N | O
deriving DecidableEq

/-- The `ProductTypeEnum` literal values. -/
inductive ProductType where
  | P | S | O | E | I
deriving DecidableEq

/-- The `TaxTypeEnum` literal values. -/
inductive TaxType where
  | IVA | IS | NS
deriving DecidableEq

/-- The `TransactionTypeEnum` literal values. -/
inductive TransactionType where
  | N | R | A | J
deriving DecidableEq

/-- Check an optional field: `None` passes, a value must satisfy the check
(the pattern of every `Optional[...]` field validator in the sources). -/
def optCheck (f : String → Bool) : Option String → Bool
  | none => true
  | some v => f v

/-- `models.py` `AddressStructure` (raw field values). -/
structure AddressStructure where
  BuildingNumber : Option String
  StreetName : Option String
  AddressDetail : String
  City : String
  PostalCode : String
  Region : Option String
  Country : String
deriving DecidableEq

/-- Field-level validity of `models.py` `AddressStructure`. -/
def addressStructureValid (a : AddressStructure) : Bool :=
  optCheck (fun v => checkLength v 10 1) a.BuildingNumber
    ∧ optCheck (fun v => checkLength v 200 1) a.StreetName
    ∧ checkLength a.AddressDetail 210 1
    ∧ checkLength a.City 50 1
    ∧ checkLength a.PostalCode 20 1
    ∧ optCheck (fun v => checkLength v 50 1) a.Region
    ∧ countryTypeValid a.Country

/-- `models.py` `CustomerAddressStructure`: same shape, `Country` additionally
allows the literal "Desconhecido". -/
structure CustomerAddressStructure where
  BuildingNumber : Option String
  StreetName : Option String
  AddressDetail : String
  City : String
  PostalCode : String
  Region : Option String
  Country : String
deriving DecidableEq

/-- Field-level validity of `models.py` `CustomerAddressStructure`. -/
def customerAddressStructureValid (a : CustomerAddressStructure) : Bool :=
  optCheck (fun v => checkLength v 10 1) a.BuildingNumber
    ∧ optCheck (fun v => checkLength v 200 1) a.StreetName
    ∧ checkLength a.AddressDetail 210 1
    ∧ checkLength a.City 50 1
    ∧ checkLength a.PostalCode 20 1
    ∧ optCheck (fun v => checkLength v 50 1) a.Region
    ∧ customerCountryValid a.Country

/-- `models.py` `Header` (the pydantic model consumed, inside `AuditFile`, by
`xml_generator.generate_saft_xml`): raw field values. -/
structure ModelsHeader where
  AuditFileVersion : String
  CompanyID : String
  TaxRegistrationNumber : Int
  TaxAccountingBasis : TaxAccountingBasis
  CompanyName : String
  BusinessName : Option String
  CompanyAddress : AddressStructure
  FiscalYear : Int
  StartDate : PyDate
  EndDate : PyDate
  CurrencyCode : String
  DateCreated : PyDate
  TaxEntity : String
  ProductCompanyTaxID : String
  SoftwareCertificateNumber : Int
  ProductID : String
  ProductVersion : String
  HeaderComment : Option String
  Telephone : Option String
  Fax : Option String
  Email : Option String
  Website : Option String
deriving DecidableEq

/-- Construction-time validity of `models.py` `Header`: the conjunction of
every declared field constraint.  `models.py` declares no cross-field
validator on `Header` (in particular no comparison of `EndDate` against
`StartDate`). -/
def modelsHeaderValid (h : ModelsHeader) : Bool :=
  auditFileVersionValid h.AuditFileVersion
    ∧ companyIdValidModels h.CompanyID
    ∧ portugueseVatValid h.TaxRegistrationNumber
    ∧ checkLength h.CompanyName 100 1
    ∧ optCheck (fun v => checkLength v 60 1) h.BusinessName
    ∧ addressStructureValid h.CompanyAddress
    ∧ (2000 ≤ h.FiscalYear ∧ h.FiscalYear ≤ 9999)
    ∧ dateSpanValid h.StartDate
    ∧ dateSpanValid h.EndDate
    ∧ currencyPTValid h.CurrencyCode
    ∧ dateSpanValid h.DateCreated
    ∧ checkLength h.TaxEntity 20 1
    ∧ checkLength h.ProductCompanyTaxID 30 1
    ∧ 0 ≤ h.SoftwareCertificateNumber
    ∧ productIdValidModels h.ProductID
    ∧ checkLength h.ProductVersion 30 1
    ∧ optCheck (fun v => checkLength v 255 1) h.HeaderComment
    ∧ optCheck (fun v => checkLength v 20 1) h.Telephone
    ∧ optCheck (fun v => checkLength v 20 1) h.Fax
    ∧ optCheck (fun v => checkLength v 254 1) h.Email
    ∧ optCheck (fun v => checkLength v 60 1) h.Website

/-- `app/schemas/saft_data.py` `AddressStructure`: pydantic field constraints
only (its `Country` is checked for length two, nothing more). -/
structure SchemasAddress where
  BuildingNumber : Option String
  StreetName : Option String
  AddressDetail : String
  City : String
  PostalCode : String
  Region : Option String
  Country : String
deriving DecidableEq

/-- One error entry when a check fails, none when it passes. -/
def fieldErr (ok : Bool) (msg : String) : List String :=
  if ok then [] else [msg]

/-- Validation errors of `app/schemas/saft_data.py` `AddressStructure`. -/
def schemasAddressErrors (a : SchemasAddress) : List String :=
  fieldErr (optCheck (fun v => checkLength v 10 1) a.BuildingNumber) "BuildingNumber too long"
    ++ fieldErr (optCheck (fun v => checkLength v 200 1) a.StreetName) "StreetName too long"
    ++ fieldErr (checkLength a.AddressDetail 210 1) "AddressDetail length out of range"
    ++ fieldErr (checkLength a.City 50 1) "City length out of range"
    ++ fieldErr (checkLength a.PostalCode 20 1) "PostalCode length out of range"
    ++ fieldErr (optCheck (fun v => checkLength v 50 1) a.Region) "Region too long"
    ++ fieldErr (a.Country.length = 2) "Country must be two characters"

/-- Full match of `app/schemas/saft_data.py`'s `CompanyID` regex
`^(?:[0-9]{9}|[^ ]+ [0-9/]+)$`. -/
def companyIdPatternSchemas (value : String) : Bool :=
  let cs := value.toList
  (cs.length = 9 ∧ cs.all Char.isDigit)
    ∨ (List.range cs.length).any (companyIdSplitAt ' ' cs)

/-- Full match of `^(?:[0-9]{9}|Global)$` (`ProductCompanyTaxID`). -/
def productCompanyTaxIdPattern (value : String) : Bool :=
  (value.length = 9 ∧ value.toList.all Char.isDigit) ∨ value = "Global"

/-- Full match of `^[^/]+/[^/]+$` (`ProductID` in `saft_data.py`): exactly one
slash, neither at the start nor at the end. -/
def productIdPatternSchemas (value : String) : Bool :=
  value.toList.count '/' = 1 ∧ !(value.toList.head? == some '/')
    ∧ !(value.toList.getLast? == some '/')

/-- `app/schemas/saft_data.py` `Header` (raw field values). -/
structure SchemasHeader where
  AuditFileVersion : String
  CompanyID : String
  TaxRegistrationNumber : Int
  TaxAccountingBasis : TaxAccountingBasis
  CompanyName : String
  BusinessName : Option String
  CompanyAddress : SchemasAddress
  FiscalYear : Int
  StartDate : PyDate
  EndDate : PyDate
  CurrencyCode : String
  DateCreated : PyDate
  TaxEntity : String
  ProductCompanyTaxID : String
  SoftwareCertificateNumber : Int
  ProductID : String
  ProductVersion : String
  HeaderComment : Option String
  Telephone : Option String
  Fax : Option String
  Email : Option String
  Website : Option String
deriving DecidableEq

/-- Validation errors collected when constructing
`app/schemas/saft_data.py` `Header`.  Field constraints and per-field
validators contribute independent entries (pydantic collects all of them);
the `validate_end_date_after_start_date` validator contributes its date-order
message whenever `EndDate < StartDate`.  `Email` is pydantic `EmailStr`,
whose grammar lives in the external `email_validator` package, so it is taken
as the oracle `emailOk`. -/
def schemasHeaderErrors (emailOk : String → Bool) (h : SchemasHeader) : List String :=
  fieldErr (h.AuditFileVersion = "1.04_01") "AuditFileVersion must match 1.04_01"
    ++ fieldErr (checkLength h.CompanyID 50 1) "CompanyID length out of range"
    ++ fieldErr (companyIdPatternSchemas h.CompanyID)
        "CompanyID must be a 9-digit NIF or \"Conservatoria Registo Comercial\" format"
    ++ fieldErr (portugueseVatValid h.TaxRegistrationNumber) "TaxRegistrationNumber out of range"
    ++ fieldErr (checkLength h.CompanyName 100 1) "CompanyName length out of range"
    ++ fieldErr (optCheck (fun v => checkLength v 60 1) h.BusinessName) "BusinessName length out of range"
    ++ schemasAddressErrors h.CompanyAddress
    ++ fieldErr (2000 ≤ h.FiscalYear ∧ h.FiscalYear ≤ 9999) "FiscalYear out of range"
    ++ fieldErr (!(dateLt h.EndDate h.StartDate))
        "EndDate must be after or the same as StartDate"
    ++ fieldErr (checkLength h.TaxEntity 20 1) "TaxEntity length out of range"
    ++ fieldErr (checkLength h.ProductCompanyTaxID 30 1) "ProductCompanyTaxID length out of range"
    ++ fieldErr (productCompanyTaxIdPattern h.ProductCompanyTaxID)
        "ProductCompanyTaxID must be a 9-digit NIF or \"Global\""
    ++ fieldErr (0 ≤ h.SoftwareCertificateNumber) "SoftwareCertificateNumber must be non-negative"
    ++ fieldErr (checkLength h.ProductID 255 3) "ProductID length out of range"
    ++ fieldErr (productIdPatternSchemas h.ProductID) "ProductID must match part1/part2"
    ++ fieldErr (checkLength h.ProductVersion 30 1) "ProductVersion length out of range"
    ++ fieldErr (optCheck (fun v => checkLength v 255 1) h.HeaderComment) "HeaderComment length out of range"
    ++ fieldErr (optCheck (fun v => checkLength v 20 1) h.Telephone) "Telephone length out of range"
    ++ fieldErr (optCheck (fun v => checkLength v 20 1) h.Fax) "Fax length out of range"
    ++ fieldErr (optCheck emailOk h.Email) "Email is not a valid address"
    ++ fieldErr (optCheck (fun v => checkLength v 60 1) h.Website) "Website length out of range"

/-- Python floats (only ever compared against 0 in the embedded checks) are
modelled as rationals; NaN and infinities are out of scope. -/
abbrev PyFloat := Rat

/-- `app/schemas/saft_data.py` `GeneralLedgerAccount` (raw field values). -/
structure GeneralLedgerAccount where
  AccountID : String
  AccountDescription : String
  OpeningDebitBalance : PyFloat
  OpeningCreditBalance : PyFloat
  ClosingDebitBalance : PyFloat
  ClosingCreditBalance : PyFloat
  GroupingCategory : GroupingCategory
  GroupingCode : Option String
  TaxonomyCode : Option Int
deriving DecidableEq

/-- Field-level validation errors of
`app/schemas/saft_data.py` `GeneralLedgerAccount`. -/
def glaFieldErrors (g : GeneralLedgerAccount) : List String :=
  fieldErr (checkLength g.AccountID 30 2) "AccountID length out of range"
    ++ fieldErr (checkLength g.AccountDescription 100 1) "AccountDescription length out of range"
    ++ fieldErr (0 ≤ g.OpeningDebitBalance) "OpeningDebitBalance must be non-negative"
    ++ fieldErr (0 ≤ g.OpeningCreditBalance) "OpeningCreditBalance must be non-negative"
    ++ fieldErr (0 ≤ g.ClosingDebitBalance) "ClosingDebitBalance must be non-negative"
    ++ fieldErr (0 ≤ g.ClosingCreditBalance) "ClosingCreditBalance must be non-negative"
    ++ fieldErr (optCheck (fun v => checkLength v 30 2) g.GroupingCode) "GroupingCode length out of range"
    ++ fieldErr ((g.TaxonomyCode.map taxonomyCodeValid).getD true) "TaxonomyCode out of range"

/-- The `check_assertions` model validator of
`app/schemas/saft_data.py` `GeneralLedgerAccount`: raises on the first
violated assertion, in source order. -/
def glaCrossError (g : GeneralLedgerAccount) : Option String :=
  if g.GroupingCategory = .GM ∧ g.TaxonomyCode = none then
    some "TaxonomyCode must be present if GroupingCategory is GM."
  else if ¬(g.GroupingCategory = .GM) ∧ g.TaxonomyCode ≠ none then
    some "TaxonomyCode must not be present if GroupingCategory is not GM."
  else if g.GroupingCategory ∈ [GroupingCategory.GA, .AA, .GM, .AM] ∧ g.GroupingCode = none then
    some ("GroupingCode must be present for GroupingCategory " ++ g.GroupingCategory.valueStr ++ ".")
  else if g.GroupingCategory ∈ [GroupingCategory.GR, .AR] ∧ g.GroupingCode ≠ none then
    some ("GroupingCode must not be present for GroupingCategory " ++ g.GroupingCategory.valueStr ++ ".")
  else none

/-- Construction of `GeneralLedgerAccount`: field checks run first, the
`mode='after'` model validator only when all of them passed.  Construction
succeeds exactly when this list is empty. -/
def glaErrors (g : GeneralLedgerAccount) : List String :=
  let f := glaFieldErrors g
  if f.isEmpty then (glaCrossError g).toList else f

/-- The `TaxCountryRegionType` literal list of `models.py`. -/
def taxCountryRegions : List String :=
  ["AD", "AE", "AF", "AG", "AI", "AL", "AM", "AO", "AQ", "AR", "AS", "AT", "AU", "AW", "AX", "AZ",
   "BA", "BB", "BD", "BE", "BF", "BG", "BH", "BI", "BJ", "BL", "BM", "BN", "BO", "BQ", "BR", "BS",
   "BT", "BV", "BW", "BY", "BZ", "CA", "CC", "CD", "CF", "CG", "CH", "CI", "CK", "CL", "CM", "CN",
   "CO", "CR", "CU", "CV", "CW", "CX", "CY", "CZ", "DE", "DJ", "DK", "DM", "DO", "DZ", "EC", "EE",
   "EG", "EH", "ER", "ES", "ET", "FI", "FJ", "FK", "FM", "FO", "FR", "GA", "GB", "GD", "GE", "GF",
   "GG", "GH", "GI", "GL", "GM", "GN", "GP", "GQ", "GR", "GS", "GT", "GU", "GW", "GY", "HK", "HM",
   "HN", "HR", "HT", "HU", "ID", "IE", "IL", "IM", "IN", "IO", "IQ", "IR", "IS", "IT", "JE", "JM",
   "JO", "JP", "KE", "KG", "KH", "KI", "KM", "KN", "KP", "KR", "KW", "KY", "KZ", "LA", "LB", "LC",
   "LI", "LK", "LR", "LS", "LT", "LU", "LV", "LY", "MA", "MC", "MD", "ME", "MF", "MG", "MH", "MK",
   "ML", "MM", "MN", "MO", "MP", "MQ", "MR", "MS", "MT", "MU", "MV", "MW", "MX", "MY", "MZ", "NA",
   "NC", "NE", "NF", "NG", "NI", "NL", "NO", "NP", "NR", "NU", "NZ", "OM", "PA", "PE", "PF", "PG",
   "PH", "PK", "PL", "PM", "PN", "PR", "PS", "PT", "PW", "PY", "QA", "RE", "RO", "RS", "RU", "RW",
   "SA", "SB", "SC", "SD", "SE", "SG", "SH", "SI", "SJ", "SK", "SL", "SM", "SN", "SO", "SR", "SS",
   "ST", "SV", "SX", "SY", "SZ", "TC", "TD", "TF", "TG", "TH", "TJ", "TK", "TL", "TM", "TN", "TO",
   "TR", "TT", "TV", "TW", "TZ", "UA", "UG", "UM", "US", "UY", "UZ", "VA", "VC", "VE", "VG", "VI",
   "VN", "VU", "WF", "WS", "XK", "YE", "YT", "ZA", "ZM", "ZW", "PT-AC", "PT-MA"]

/-- `models.py` `TaxTableEntry` (raw field values). -/
structure TaxTableEntry where
  TaxType : TaxType
  TaxCountryRegion : String
  TaxCode : String
  Description : String
  TaxExpirationDate : Option PyDate
  TaxPercentage : Option PyDecimal
  TaxAmount : Option PyDecimal
deriving DecidableEq

/-- Field-level validation errors of `models.py` `TaxTableEntry`
(`TaxPercentage` is `condecimal(ge=0)` with no decimal-place bound,
`TaxAmount` is `SAFmonetaryType`). -/
def taxTableEntryFieldErrors (t : TaxTableEntry) : List String :=
  fieldErr (t.TaxCountryRegion ∈ taxCountryRegions) "TaxCountryRegion is not a listed value"
    ++ fieldErr (taxTableEntryTaxCodeValid t.TaxCode) "Invalid TaxTableEntryTaxCode format."
    ++ fieldErr (checkLength t.Description 255 1) "Description length out of range"
    ++ fieldErr ((t.TaxExpirationDate.map dateSpanValid).getD true) "TaxExpirationDate out of range"
    ++ fieldErr ((t.TaxPercentage.map (fun d => decide (0 ≤ d.coeff))).getD true)
        "TaxPercentage must be non-negative"
    ++ fieldErr ((t.TaxAmount.map monetaryValid).getD true) "TaxAmount invalid"

/-- The `check_tax_rules` model validator of `models.py` `TaxTableEntry`:
rejects both-absent and both-present with distinct messages. -/
def taxTableEntryCrossError (t : TaxTableEntry) : Option String :=
  if t.TaxPercentage = none ∧ t.TaxAmount = none then
    some "Either TaxPercentage or TaxAmount must be provided."
  else if t.TaxPercentage ≠ none ∧ t.TaxAmount ≠ none then
    some "TaxPercentage and TaxAmount cannot both have values."
  else none

/-- Construction of `models.py` `TaxTableEntry`: the `mode='after'` validator
runs only once all field checks passed.  Construction succeeds exactly when
this list is empty. -/
def taxTableEntryErrors (t : TaxTableEntry) : List String :=
  let f := taxTableEntryFieldErrors t
  if f.isEmpty then (taxTableEntryCrossError t).toList else f

/-- `models.py` `Customer` (SQLModel row, raw field values). -/
structure Customer where
  id : Option Int
  CustomerID : String
  AccountID : String
  CustomerTaxID : String
  CompanyName : String
  Contact : Option String
  BillingAddress : CustomerAddressStructure
  ShipToAddress : Option (List CustomerAddressStructure)
  Telephone : Option String
  Fax : Option String
  Email : Option String
  Website : Option String
  SelfBillingIndicator : Int
  owner_id : Option Int
deriving DecidableEq

/-- `models.py` `Supplier` (SQLModel row, raw field values). -/
structure Supplier where
  id : Option Int
  SupplierID : String
  AccountID : String
  SupplierTaxID : String
  CompanyName : String
  Contact : Option String
  BillingAddress : AddressStructure
  ShipFromAddress : Option (List AddressStructure)
  Telephone : Option String
  Fax : Option String
  Email : Option String
  Website : Option String
  SelfBillingIndicator : Int
deriving DecidableEq

/-- `models.py` `Account` (table `generalledgeraccount`, raw field values). -/
structure Account where
  id : Option Int
  AccountID : String
  AccountDescription : String
  OpeningDebitBalance : PyDecimal
  OpeningCreditBalance : PyDecimal
  ClosingDebitBalance : PyDecimal
  ClosingCreditBalance : PyDecimal
  GroupingCategory : GroupingCategory
  GroupingCode : Option String
  TaxonomyCode : Option Int
deriving DecidableEq

/-- `models.py` `GeneralLedgerAccounts` wrapper. -/
structure GeneralLedgerAccounts where
  TaxonomyReference : TaxonomyReference
  Account : List Account
deriving DecidableEq

/-- `models.py` `CustomsDetails`. -/
structure CustomsDetails where
  CNCode : Option (List String)
  UNNumber : Option (List String)
deriving DecidableEq

/-- `models.py` `Product` (SQLModel row, raw field values). -/
structure Product where
  id : Option Int
  ProductType : ProductType
  ProductCode : String
  ProductGroup : Option String
  ProductDescription : String
  ProductNumberCode : String
  CustomsDetails : Option CustomsDetails
deriving DecidableEq

/-- `models.py` `TaxTable` wrapper. -/
structure TaxTable where
  TaxTableEntry : List TaxTableEntry
deriving DecidableEq

/-- `models.py` `MasterFiles`: each category is optional, absent categories
are `none`. -/
structure MasterFiles where
  GeneralLedgerAccounts : Option GeneralLedgerAccounts
  Customer : Option (List Customer)
  Supplier : Option (List Supplier)
  Product : Option (List Product)
  TaxTable : Option TaxTable
deriving DecidableEq

/-- A Python `datetime` value (`SAFdateTimeType`). -/
structure PyDateTime where
  date : PyDate
  hour : Nat
  minute : Nat
  second : Nat
deriving DecidableEq

/-- `models.py` `DebitLine` (raw field values). -/
structure DebitLine where
  RecordID : String
  AccountID : String
  SourceDocumentID : Option String
  SystemEntryDate : PyDateTime
  Description : String
  DebitAmount : PyDecimal
deriving DecidableEq

/-- `models.py` `CreditLine` (raw field values). -/
structure CreditLine where
  RecordID : String
  AccountID : String
  SourceDocumentID : Option String
  SystemEntryDate : PyDateTime
  Description : String
  CreditAmount : PyDecimal
deriving DecidableEq

/-- `models.py` `Lines`. -/
structure Lines where
  DebitLine : List DebitLine
  CreditLine : List CreditLine
deriving DecidableEq

/-- `models.py` `Transaction` (raw field values). -/
structure Transaction where
  TransactionID : String
  Period : Int
  TransactionDate : PyDate
  SourceID : String
  Description : String
  DocArchivalNumber : String
  TransactionType : TransactionType
  GLPostingDate : PyDate
  CustomerID : Option String
  SupplierID : Option String
  Lines : Lines
deriving DecidableEq

/-- `models.py` `Journal` (raw field values). -/
structure Journal where
  JournalID : String
  Description : String
  Transaction : Option (List Transaction)
deriving DecidableEq

/-- `models.py` `GeneralLedgerEntries` (raw field values). -/
structure GeneralLedgerEntries where
  NumberOfEntries : Int
  TotalDebit : PyDecimal
  TotalCredit : PyDecimal
  Journal : Option (List Journal)
deriving DecidableEq

/-- `models.py` `AuditFile`: the aggregate root consumed by
`generate_saft_xml`. -/
structure AuditFile where
  Header : ModelsHeader
  MasterFiles : MasterFiles
  GeneralLedgerEntries : Option GeneralLedgerEntries
deriving DecidableEq

/-- `models.py` `User` (raw field values). -/
structure UserModel where
  id : Option Int
  username : String
  email : Option String
  hashed_password : String
  is_active : Bool
  is_superuser : Bool
deriving DecidableEq

/-- `core/config.py` `DEMO_USER_USERNAME`. -/
def DEMO_USER_USERNAME : String := "demo_user"

/-- `engine.py` `get_full_audit_data_for_xml`: assembles the `AuditFile`
aggregate from the entity collections fetched from the database (the
`db_session` queries are external, so the fetched lists are parameters, as is
the current date `today` standing for `date.today()`).  Every master-file
category fetched empty becomes `None`; `GeneralLedgerEntries` is a zero-entry
structure with an empty journal list. -/
def get_full_audit_data_for_xml (today : PyDate) (current_user : UserModel)
    (customers : List Customer) (suppliers : List Supplier)
    (products : List Product) (gl_accounts_db : List Account) : AuditFile :=
  let demo := current_user.username = DEMO_USER_USERNAME
  let company_name_for_header :=
    if demo then "Demo Company SA (SAF-T View)" else current_user.username ++ "'s Company"
  let company_id_for_header := if demo then "DEMO00001" else "999999990"
  let tax_reg_number_for_header : Int := if demo then 999000001 else 999999990
  let header : ModelsHeader :=
    { AuditFileVersion := "1.04_01"
      CompanyID := company_id_for_header
      TaxRegistrationNumber := tax_reg_number_for_header
      TaxAccountingBasis := .F
      CompanyName := company_name_for_header
      BusinessName := none
      CompanyAddress :=
        { BuildingNumber := none, StreetName := none, AddressDetail := "Rua Ficticia, 123"
          City := "User City", PostalCode := "9999-000", Region := none, Country := "PT" }
      FiscalYear := today.year
      StartDate := ⟨today.year, 1, 1⟩
      EndDate := ⟨today.year, 12, 31⟩
      CurrencyCode := "EUR"
      DateCreated := today
      TaxEntity := "Global"
      ProductCompanyTaxID := "500000000"
      SoftwareCertificateNumber := 1234
      ProductID := "MySAFTGenerator/1.1"
      ProductVersion := "1.1"
      HeaderComment := some ("SAF-T PT generated for " ++ current_user.username)
      Telephone := some "+351912345678"
      Fax := some "+351210000000"
      Email := some (match current_user.email with
        | some e => e
        | none => current_user.username ++ "@example.com")
      Website := some "www.usercompany.example.com" }
  let general_ledger_accounts_model : Option GeneralLedgerAccounts :=
    if gl_accounts_db.isEmpty then none
    else some { TaxonomyReference := .S, Account := gl_accounts_db }
  let master_files : MasterFiles :=
    { GeneralLedgerAccounts := general_ledger_accounts_model
      Customer := if customers.isEmpty then none else some customers
      Supplier := if suppliers.isEmpty then none else some suppliers
      Product := if products.isEmpty then none else some products
      TaxTable := none }
  let general_ledger_entries : GeneralLedgerEntries :=
    { NumberOfEntries := 0, TotalDebit := ⟨0, 2⟩, TotalCredit := ⟨0, 2⟩, Journal := some [] }
  { Header := header, MasterFiles := master_files,
    GeneralLedgerEntries := some general_ledger_entries }

/-! ## Mapping engine (`mapping.py`) -/

/-- A JSON-like nested value as built by `apply_mapping`: a source cell value
(kept as the string it arrived as) or a nested dict. -/
inductive PyVal where
  | str (s : String)
  | dict (entries : List (String × PyVal))

/-- The nested structure `model_dict_data` built for one row. -/
abbrev PyDict := List (String × PyVal)

/-- Python dict lookup (`d.get(k)` / `k in d`); keys are unique, entries kept
in insertion order. -/
def dictGet {α : Type} (d : List (String × α)) (k : String) : Option α :=
  match d with
  | [] => none
  | (k0, v0) :: rest => if k0 = k then some v0 else dictGet rest k

/-- Python dict assignment `d[k] = v`: replaces in place if the key exists,
otherwise appends. -/
def dictSet (d : PyDict) (k : String) (v : PyVal) : PyDict :=
  match d with
  | [] => [(k, v)]
  | (k0, v0) :: rest => if k0 = k then (k0, v) :: rest else (k0, v0) :: dictSet rest k v

/-- The inner loop of `apply_mapping` over one dotted path: walk
`parts[:-1]`, creating intermediate dicts for missing keys; on meeting an
existing non-dict value the mapping conflicts and is skipped for this row
(the dict is left as it stands); finally assign the value at the last part. -/
def setPath (d : PyDict) (parts : List String) (value : String) : PyDict :=
  match parts with
  | [] => d
  | [last] => dictSet d last (.str value)
  | p :: rest =>
    match dictGet d p with
    | none => dictSet d p (.dict (setPath [] rest value))
    | some (.dict sub) => dictSet d p (.dict (setPath sub rest value))
    | some (.str _) => d

/-- Python `str.split` with a single-character separator: splitting never
yields the empty list (splitting the empty string yields one empty group). -/
def splitOnChar (sep : Char) : List Char → List (List Char)
  | [] => [[]]
  | c :: rest =>
    let r := splitOnChar sep rest
    if c = sep then [] :: r
    else
      match r with
      | [] => [[c]]
      | g :: gs => (c :: g) :: gs

/-- `model_path.split('.')` of `apply_mapping`. -/
def splitDots (path : String) : List String :=
  (splitOnChar '.' path.toList).map String.mk

/-- `mapping.py` `MappingProfile`. -/
structure MappingProfile where
  profile_name : String
  target_model : String
  mappings : List (String × String)

/-- Building `model_dict_data` for one row: for each mapping entry, a source
column absent from the row skips just that field; present values are inserted
along the dotted path. -/
def buildRowDict (mappings : List (String × String)) (row : List (String × String)) : PyDict :=
  mappings.foldl
    (fun acc m =>
      match dictGet row m.1 with
      | none => acc
      | some value => setPath acc (splitDots m.2) value)
    []

/-- The row loop of `apply_mapping`: a row whose built structure is empty is
skipped before any construction attempt; otherwise the target model is
constructed (`validate`), appending on success and dropping the row on
validation failure. -/
def applyMappingRows {α : Type} (validate : PyDict → Option α)
    (mappings : List (String × String)) : List (List (String × String)) → List α
  | [] => []
  | row :: rest =>
    let model_dict_data := buildRowDict mappings row
    if model_dict_data.isEmpty then applyMappingRows validate mappings rest
    else
      match validate model_dict_data with
      | some inst => inst :: applyMappingRows validate mappings rest
      | none => applyMappingRows validate mappings rest

/-- `mapping.py` `apply_mapping`: raises (`Except.error`) only when the
profile's target model is not in the registry; entity construction is the
registry's `Option`-valued constructor (pydantic `model_validate`, whose
`ValidationError` and any other exception are caught per row). -/
def apply_mapping {α : Type} (data_rows : List (List (String × String)))
    (mapping_profile : MappingProfile)
    (available_models : List (String × (PyDict → Option α))) : Except String (List α) :=
  match dictGet available_models mapping_profile.target_model with
  | none => .error ("Target model '" ++ mapping_profile.target_model
      ++ "' not found in available_models dictionary.")
  | some TargetModel =>
    .ok (applyMappingRows TargetModel mapping_profile.mappings data_rows)

/-! ## Schema validator (`xsd_validator.py`)

`validate_saft_xml` is a function of the outcomes lxml can produce for its
three stages: loading/compiling the XSD, parsing the XML text, and running
the schema check (whose error log carries line/column/message entries). -/

/-- Outcome of `etree.parse(xsd_filepath)` + `etree.XMLSchema`. -/
inductive XsdLoadOutcome where
  | ok
  | schemaParseError (msg : String)
  | osError (msg : String)
deriving DecidableEq

/-- Outcome of `etree.fromstring(xml_bytes)`. -/
inductive XmlParseOutcome where
  | ok
  | syntaxError (msg : String)
deriving DecidableEq

/-- One entry of `xmlschema.error_log`. -/
structure SchemaLogEntry where
  line : Nat
  column : Nat
  message : String
  domain_name : String
  type_name : String
deriving DecidableEq

/-- The lxml outcomes for one `validate_saft_xml` call. -/
structure LxmlEnv where
  xsdLoad : XsdLoadOutcome
  xmlParse : XmlParseOutcome
  schemaValid : Bool
  errorLog : List SchemaLogEntry
deriving DecidableEq

/-- The error formatting of `xsd_validator.py` line 62. -/
def formatSchemaLogEntry (e : SchemaLogEntry) : String :=
  "L" ++ toString e.line ++ ":C" ++ toString e.column ++ " - " ++ e.message
    ++ " (Domain: " ++ e.domain_name ++ ", Type: " ++ e.type_name ++ ")"

/-- `xsd_validator.py` `validate_saft_xml`.  Every failure is reported through
the returned pair; the stages run in order and the first failing stage
returns immediately. -/
def validate_saft_xml (env : LxmlEnv) : Bool × List String :=
  match env.xsdLoad with
  | .schemaParseError m => (false, ["XSD schema parse error: " ++ m])
  | .osError m => (false, ["XSD file error: " ++ m])
  | .ok =>
    match env.xmlParse with
    | .syntaxError m => (false, ["Malformed XML: " ++ m])
    | .ok =>
      if env.schemaValid then (true, [])
      else
        let error_messages := env.errorLog.map formatSchemaLogEntry
        if error_messages.isEmpty then
          (false, ["Unknown validation error: xmlschema.validate returned False but no errors in log."])
        else (false, error_messages)

/-! ## Decimal lexicalization in the XML generator (`xml_generator.py`)

`generate_saft_xml` dumps the pydantic model with `model_dump(...)`, which
keeps `Decimal` values as they are, and `xmltodict.unparse` writes each leaf
with Python `str`.  `pyDecimalStr` reproduces `str` on a `Decimal` of
non-positive exponent (the only shape a `condecimal(decimal_places=2)` value
can have; no scientific notation arises there). -/

/-- The character of a single decimal digit. -/
def digitChar (d : Nat) : Char := Char.ofNat (48 + d)

/-- Decimal digit characters of `n`, most significant first (empty for 0);
the first argument is fuel, always called with `n ≤ fuel`. -/
def natDigitsAux : Nat → Nat → List Char
  | 0, _ => []
  | _ + 1, 0 => []
  | fuel + 1, n + 1 => natDigitsAux fuel ((n + 1) / 10) ++ [digitChar ((n + 1) % 10)]

/-- Decimal digit characters of `n` (empty for 0). -/
def natDigits (n : Nat) : List Char := natDigitsAux n n

/-- Decimal digit characters of `n`, rendering 0 as "0". -/
def natChars (n : Nat) : List Char :=
  if n = 0 then ['0'] else natDigits n

/-- Left-pad with zeros to width `s`. -/
def padLeftZeros (s : Nat) (cs : List Char) : List Char :=
  List.replicate (s - cs.length) '0' ++ cs

/-- The characters Python `str` writes for a `Decimal` with exponent
`-scale`, `scale ≥ 0`: an optional sign, the integer part, and when the
scale is positive a point followed by exactly `scale` fractional digits
(trailing zeros preserved, as `Decimal` keeps its stored scale). -/
def pyDecimalChars (d : PyDecimal) : List Char :=
  let sign := if d.coeff < 0 then ['-'] else []
  let m := d.coeff.natAbs
  if d.scale = 0 then sign ++ natChars m
  else
    sign ++ natChars (m / 10 ^ d.scale)
      ++ '.' :: padLeftZeros d.scale (natDigits (m % 10 ^ d.scale))

/-- Python `str` on a `Decimal` value. -/
def pyDecimalStr (d : PyDecimal) : String :=
  String.mk (pyDecimalChars d)

/-- Python `str` on an int. -/
def intStr (i : Int) : String :=
  String.mk ((if i < 0 then ['-'] else []) ++ natChars i.natAbs)

/-- The characters after the last dot, if any dot occurs. -/
def afterLastDot : List Char → Option (List Char)
  | [] => none
  | c :: cs =>
    match afterLastDot cs with
    | some t => some t
    | none => if c = '.' then some cs else none

/-- Number of fractional digits of a rendered number: length of the part
after the last dot, `none` when there is no dot. -/
def fracLen (s : String) : Option Nat :=
  (afterLastDot s.toList).map List.length

/-- The lexical form the spec prescribes for monetary values: a decimal point
with exactly two digits after it. -/
def hasExactlyTwoDecimals (s : String) : Bool :=
  fracLen s == some 2

/-- No thousands separator appears in the rendered value. -/
def noThousandsSep (s : String) : Bool :=
  decide (',' ∉ s.toList)

/-- One XML element as written by `xmltodict.unparse` without pretty
printing. -/
def xmlElement (tag text : String) : String :=
  "<" ++ tag ++ ">" ++ text ++ "</" ++ tag ++ ">"

/-- The serialization of the three scalar children of `GeneralLedgerEntries`
inside `generate_saft_xml`'s output (non-pretty mode; the optional journal
list is not rendered here): integers and decimals are written with Python
`str`. -/
def genGLETotalsFragment (gle : GeneralLedgerEntries) : String :=
  xmlElement "NumberOfEntries" (intStr gle.NumberOfEntries)
    ++ xmlElement "TotalDebit" (pyDecimalStr gle.TotalDebit)
    ++ xmlElement "TotalCredit" (pyDecimalStr gle.TotalCredit)

/-! ## Theorems for the claims -/

/-- C1: for every successfully constructed `GeneralLedgerAccount`,
`GroupingCategory = GM` holds iff `TaxonomyCode` is present, and
`GroupingCategory ∈ {GA, AA, GM, AM}` holds iff `GroupingCode` is present;
in particular a `GR` account with a `GroupingCode` set fails construction. -/
theorem C1_gla_grouping_assertions (g : GeneralLedgerAccount) :
    (glaErrors g = [] →
      ((g.GroupingCategory = .GM ↔ g.TaxonomyCode ≠ none)
        ∧ (g.GroupingCategory ∈ [GroupingCategory.GA, .AA, .GM, .AM] ↔ g.GroupingCode ≠ none)))
    ∧ (∀ c : String, g.GroupingCategory = .GR → g.GroupingCode = some c → glaErrors g ≠ []) := by
  have key : glaErrors g = [] →
      ((g.GroupingCategory = .GM ↔ g.TaxonomyCode ≠ none)
        ∧ (g.GroupingCategory ∈ [GroupingCategory.GA, .AA, .GM, .AM] ↔ g.GroupingCode ≠ none)) := by
    intro h
    have hcross : glaCrossError g = none := by
      unfold glaErrors at h
      rcases hf : glaFieldErrors g with _ | ⟨e, es⟩
      · rw [hf] at h
        simp at h
        rcases hc : glaCrossError g with _ | v
        · rfl
        · rw [hc] at h; simp at h
      · rw [hf] at h; simp at h
    cases hcat : g.GroupingCategory <;>
      rcases htc : g.TaxonomyCode with _ | tc <;>
      rcases hgc : g.GroupingCode with _ | gc <;>
      simp_all [glaCrossError]
  refine ⟨key, ?_⟩
  intro c hGR hCode h0
  have h2 := (key h0).2
  rw [hGR, hCode] at h2
  simp at h2

/-- Witness for C1: a concrete movement account (GM, taxonomy and grouping
code present) constructs successfully and satisfies both equivalences. -/
def c1Account : GeneralLedgerAccount :=
  { AccountID := "11", AccountDescription := "Caixa"
    OpeningDebitBalance := 0, OpeningCreditBalance := 0
    ClosingDebitBalance := 0, ClosingCreditBalance := 0
    GroupingCategory := .GM, GroupingCode := some "11", TaxonomyCode := some 1 }

theorem C1_gla_grouping_assertions_witness :
    glaErrors c1Account = []
      ∧ ((c1Account.GroupingCategory = .GM ↔ c1Account.TaxonomyCode ≠ none)
          ∧ (c1Account.GroupingCategory ∈ [GroupingCategory.GA, .AA, .GM, .AM]
              ↔ c1Account.GroupingCode ≠ none)) :=
  ⟨by decide, (C1_gla_grouping_assertions c1Account).1 (by decide)⟩

/-- C2: `validate_saft_xml` returns `(True, [])` exactly when the schema
loads, the document is well-formed and it is schema-valid; in every other
case it returns `False` with a non-empty error list (never raising for
data-quality problems: every outcome is one of the two shapes). -/
theorem C2_validate_saft_xml_contract (env : LxmlEnv) :
    (validate_saft_xml env = (true, []) ↔
      (env.xsdLoad = .ok ∧ env.xmlParse = .ok ∧ env.schemaValid = true))
    ∧ ((validate_saft_xml env).1 = false → (validate_saft_xml env).2 ≠ []) := by
  obtain ⟨xsd, xml, valid, log⟩ := env
  cases xsd <;> cases xml <;> cases valid <;> cases log <;>
    simp [validate_saft_xml, formatSchemaLogEntry]

/-- Witness for C2: the all-good environment yields `(true, [])`. -/
def c2Env : LxmlEnv := ⟨.ok, .ok, true, []⟩

theorem C2_validate_saft_xml_contract_witness :
    validate_saft_xml c2Env = (true, []) :=
  (C2_validate_saft_xml_contract c2Env).1.mpr ⟨rfl, rfl, rfl⟩

/-- C5: a `TaxTableEntry` constructs successfully only when exactly one of
`TaxPercentage` and `TaxAmount` is present; with individually valid fields,
both-absent and both-present fail, with two distinct messages. -/
theorem C5_taxtableentry_exclusivity (t : TaxTableEntry) :
    (taxTableEntryErrors t = [] → t.TaxPercentage.isSome ≠ t.TaxAmount.isSome)
    ∧ (taxTableEntryFieldErrors t = [] → t.TaxPercentage = none → t.TaxAmount = none →
        taxTableEntryErrors t = ["Either TaxPercentage or TaxAmount must be provided."])
    ∧ (taxTableEntryFieldErrors t = [] →
        t.TaxPercentage ≠ none → t.TaxAmount ≠ none →
        taxTableEntryErrors t = ["TaxPercentage and TaxAmount cannot both have values."]) := by
  refine ⟨?_, ?_, ?_⟩
  · intro h
    have hcross : taxTableEntryCrossError t = none := by
      unfold taxTableEntryErrors at h
      rcases hf : taxTableEntryFieldErrors t with _ | ⟨e, es⟩
      · rw [hf] at h
        simp at h
        rcases hc : taxTableEntryCrossError t with _ | v
        · rfl
        · rw [hc] at h; simp at h
      · rw [hf] at h; simp at h
    rcases hp : t.TaxPercentage with _ | p <;> rcases ha : t.TaxAmount with _ | a <;>
      simp_all [taxTableEntryCrossError]
  · intro hf hp ha
    unfold taxTableEntryErrors
    rw [hf]
    simp [taxTableEntryCrossError, hp, ha]
  · intro hf hp ha
    unfold taxTableEntryErrors
    rw [hf]
    simp [taxTableEntryCrossError, hp, ha]

/-- Witness for C5: a concrete entry with only `TaxPercentage` set constructs
successfully; dropping it while `TaxAmount` stays absent yields the
both-absent message. -/
def c5Entry : TaxTableEntry :=
  { TaxType := .IVA, TaxCountryRegion := "PT", TaxCode := "NOR"
    Description := "Taxa normal", TaxExpirationDate := none
    TaxPercentage := some ⟨2300, 2⟩, TaxAmount := none }

theorem C5_taxtableentry_exclusivity_witness :
    (taxTableEntryErrors c5Entry = []
      ∧ c5Entry.TaxPercentage.isSome ≠ c5Entry.TaxAmount.isSome)
    ∧ taxTableEntryErrors { c5Entry with TaxPercentage := none }
        = ["Either TaxPercentage or TaxAmount must be provided."] :=
  ⟨⟨by decide, (C5_taxtableentry_exclusivity c5Entry).1 (by decide)⟩,
    (C5_taxtableentry_exclusivity { c5Entry with TaxPercentage := none }).2.1
      (by decide) (by decide) (by decide)⟩

/-- C6: configuration errors abort the whole operation: `apply_mapping` with
a target model unknown to the registry raises before any row is processed,
and `validate_saft_xml` with a missing/unreadable XSD file returns the
schema-load failure alone, untouched by the XML parse or schema-check
outcomes (the operation stops at the configuration fault instead of being
treated as one more data error). -/
theorem C6_configuration_errors_abort :
    (∀ (α : Type) (data_rows : List (List (String × String))) (profile : MappingProfile)
        (available_models : List (String × (PyDict → Option α))),
        dictGet available_models profile.target_model = none →
          apply_mapping data_rows profile available_models
            = .error ("Target model '" ++ profile.target_model
                ++ "' not found in available_models dictionary."))
    ∧ (∀ (env : LxmlEnv) (m : String), env.xsdLoad = .osError m →
        validate_saft_xml env = (false, ["XSD file error: " ++ m])) := by
  constructor
  · intro α data_rows profile available_models h
    simp [apply_mapping, h]
  · intro env m h
    simp [validate_saft_xml, h]

/-- Witness for C6: the empty registry and a file-not-found XSD load. -/
def c6Profile : MappingProfile :=
  ⟨"profile", "Customer", [("Client ID", "CustomerID")]⟩

theorem C6_configuration_errors_abort_witness :
    apply_mapping (α := Unit) [[("Client ID", "C001")]] c6Profile []
        = .error ("Target model '" ++ c6Profile.target_model
            ++ "' not found in available_models dictionary.")
      ∧ validate_saft_xml ⟨.osError "No such file", .syntaxError "ignored", false, []⟩
          = (false, ["XSD file error: " ++ "No such file"]) :=
  ⟨C6_configuration_errors_abort.1 Unit [[("Client ID", "C001")]] c6Profile [] rfl,
    C6_configuration_errors_abort.2 ⟨.osError "No such file", .syntaxError "ignored", false, []⟩
      "No such file" rfl⟩

/-- C9: in the `AuditFile` assembled by `get_full_audit_data_for_xml`, each
master-file category fetched empty is omitted (`none`), and a present
category is exactly the non-empty fetched list — never an empty list. -/
theorem C9_masterfiles_omission (today : PyDate) (u : UserModel)
    (cs : List Customer) (ss : List Supplier) (ps : List Product) (gs : List Account) :
    ((get_full_audit_data_for_xml today u cs ss ps gs).MasterFiles.Customer = none ↔ cs = [])
    ∧ (∀ l, (get_full_audit_data_for_xml today u cs ss ps gs).MasterFiles.Customer = some l →
        l = cs ∧ l ≠ [])
    ∧ ((get_full_audit_data_for_xml today u cs ss ps gs).MasterFiles.Supplier = none ↔ ss = [])
    ∧ (∀ l, (get_full_audit_data_for_xml today u cs ss ps gs).MasterFiles.Supplier = some l →
        l = ss ∧ l ≠ [])
    ∧ ((get_full_audit_data_for_xml today u cs ss ps gs).MasterFiles.Product = none ↔ ps = [])
    ∧ (∀ l, (get_full_audit_data_for_xml today u cs ss ps gs).MasterFiles.Product = some l →
        l = ps ∧ l ≠ [])
    ∧ ((get_full_audit_data_for_xml today u cs ss ps gs).MasterFiles.GeneralLedgerAccounts = none
        ↔ gs = [])
    ∧ (∀ w, (get_full_audit_data_for_xml today u cs ss ps gs).MasterFiles.GeneralLedgerAccounts
          = some w → w.Account = gs ∧ w.Account ≠ []) := by
  cases cs <;> cases ss <;> cases ps <;> cases gs <;>
    simp [get_full_audit_data_for_xml, List.isEmpty]

/-- Witness for C9: one fetched customer is kept, empty categories vanish. -/
def c9User : UserModel :=
  ⟨some 1, "alex", none, "x", true, false⟩

def c9Customer : Customer :=
  { id := some 1, CustomerID := "C001", AccountID := "Desconhecido"
    CustomerTaxID := "999999990", CompanyName := "Cliente Exemplo LDA", Contact := none
    BillingAddress :=
      { BuildingNumber := none, StreetName := none, AddressDetail := "Av. Liberdade 100"
        City := "Lisboa", PostalCode := "1250-145", Region := none, Country := "PT" }
    ShipToAddress := none, Telephone := none, Fax := none, Email := none, Website := none
    SelfBillingIndicator := 0, owner_id := some 1 }

theorem C9_masterfiles_omission_witness :
    ((get_full_audit_data_for_xml ⟨2023, 6, 1⟩ c9User [c9Customer] [] [] []).MasterFiles.Supplier
        = none)
      ∧ (∀ l, (get_full_audit_data_for_xml ⟨2023, 6, 1⟩ c9User [c9Customer] [] [] []).MasterFiles.Customer
            = some l → l = [c9Customer] ∧ l ≠ []) :=
  ⟨(C9_masterfiles_omission ⟨2023, 6, 1⟩ c9User [c9Customer] [] [] []).2.2.1.mpr rfl,
    (C9_masterfiles_omission ⟨2023, 6, 1⟩ c9User [c9Customer] [] [] []).2.1⟩

/-- The concrete `models.py` `Header` value of C4: every field constraint
passes while `EndDate` (2022-12-31) precedes `StartDate` (2023-01-01). -/
def c4Header : ModelsHeader :=
  { AuditFileVersion := "1.04_01"
    CompanyID := "501234567"
    TaxRegistrationNumber := 501234567
    TaxAccountingBasis := .F
    CompanyName := "Test Company SA"
    BusinessName := none
    CompanyAddress :=
      { BuildingNumber := none, StreetName := none, AddressDetail := "Rua Teste 123"
        City := "Lisboa", PostalCode := "1000-001", Region := none, Country := "PT" }
    FiscalYear := 2023
    StartDate := ⟨2023, 1, 1⟩
    EndDate := ⟨2022, 12, 31⟩
    CurrencyCode := "EUR"
    DateCreated := ⟨2023, 1, 1⟩
    TaxEntity := "Global"
    ProductCompanyTaxID := "501234567"
    SoftwareCertificateNumber := 0
    ProductID := "TestSAFTPTGenerator/1.0"
    ProductVersion := "1.0"
    HeaderComment := none, Telephone := none, Fax := none, Email := none, Website := none }

/-- Counterexample for C4: the claim says a `Header` with
`EndDate < StartDate` can never be constructed and so never reaches the XML
generator; but `models.py`'s `Header` — the type `generate_saft_xml`
consumes — declares no date-order validator, and this value passes all its
construction-time checks with `EndDate` strictly before `StartDate`. -/
theorem C4_models_header_counterexample :
    modelsHeaderValid c4Header = true
      ∧ dateLt c4Header.EndDate c4Header.StartDate = true := by
  exact ⟨by decide, by decide⟩

/-- C4 as amended: the `app/schemas/saft_data.py` `Header` rejects
`EndDate < StartDate` with the date-order error, for every field valuation
and email oracle; the `models.py` `Header` consumed by the generator has no
such check, witnessed by `c4Header`. -/
theorem C4_header_date_order_amended :
    (∀ (emailOk : String → Bool) (h : SchemasHeader),
        dateLt h.EndDate h.StartDate = true →
          "EndDate must be after or the same as StartDate" ∈ schemasHeaderErrors emailOk h)
    ∧ (modelsHeaderValid c4Header = true
        ∧ dateLt c4Header.EndDate c4Header.StartDate = true) := by
  refine ⟨?_, by decide, by decide⟩
  intro emailOk h hlt
  unfold schemasHeaderErrors
  simp [fieldErr, hlt, List.mem_append]

/-- Witness for C4's amended theorem: the schemas-layer header with the same
invalid dates produces the date-order error. -/
def c4SchemasHeader : SchemasHeader :=
  { AuditFileVersion := "1.04_01"
    CompanyID := "501234567"
    TaxRegistrationNumber := 501234567
    TaxAccountingBasis := .F
    CompanyName := "Test Company SA"
    BusinessName := none
    CompanyAddress :=
      { BuildingNumber := none, StreetName := none, AddressDetail := "Rua Teste 123"
        City := "Lisboa", PostalCode := "1000-001", Region := none, Country := "PT" }
    FiscalYear := 2023
    StartDate := ⟨2023, 1, 1⟩
    EndDate := ⟨2022, 12, 31⟩
    CurrencyCode := "EUR"
    DateCreated := ⟨2023, 1, 1⟩
    TaxEntity := "Global"
    ProductCompanyTaxID := "501234567"
    SoftwareCertificateNumber := 0
    ProductID := "TestSAFTPTGenerator/1.0"
    ProductVersion := "1.0"
    HeaderComment := none, Telephone := none, Fax := none, Email := none, Website := none }

theorem C4_header_date_order_amended_witness :
    dateLt c4SchemasHeader.EndDate c4SchemasHeader.StartDate = true
      ∧ "EndDate must be after or the same as StartDate"
          ∈ schemasHeaderErrors (fun _ => true) c4SchemasHeader :=
  ⟨by decide,
    C4_header_date_order_amended.1 (fun _ => true) c4SchemasHeader (by decide)⟩

/-- Row bookkeeping of the `apply_mapping` loop: the produced entities, the
rows dropped on construction failure and the rows skipped for an empty built
structure partition the input. -/
lemma applyMappingRows_length {α : Type} (v : PyDict → Option α)
    (mappings : List (String × String)) (rows : List (List (String × String))) :
    (applyMappingRows v mappings rows).length
      + (rows.filter (fun r => !(buildRowDict mappings r).isEmpty
          && (v (buildRowDict mappings r)).isNone)).length
      + (rows.filter (fun r => (buildRowDict mappings r).isEmpty)).length
      = rows.length := by
  induction rows with
  | nil => simp [applyMappingRows]
  | cons r rest ih =>
    by_cases he : (buildRowDict mappings r).isEmpty
    · simp [applyMappingRows, he, List.filter_cons]
      omega
    · rcases hv : v (buildRowDict mappings r) with _ | inst <;>
        simp [applyMappingRows, he, hv, List.filter_cons] <;>
        omega

/-- C3 as amended: `apply_mapping` raises exactly when the profile's target
model is absent from the registry; otherwise, with K the rows dropped by a
failed construction and S the rows skipped because no mapped source column
produced data, it returns exactly N − K − S validated entities (so exactly
N − K whenever every row yields some mapped data). -/
theorem C3_apply_mapping_partial_failure {α : Type}
    (data_rows : List (List (String × String))) (mapping_profile : MappingProfile)
    (available_models : List (String × (PyDict → Option α))) :
    (dictGet available_models mapping_profile.target_model = none →
      apply_mapping data_rows mapping_profile available_models
        = .error ("Target model '" ++ mapping_profile.target_model
            ++ "' not found in available_models dictionary."))
    ∧ (∀ v, dictGet available_models mapping_profile.target_model = some v →
        ∀ l, apply_mapping data_rows mapping_profile available_models = .ok l →
          l.length
            + (data_rows.filter (fun r => !(buildRowDict mapping_profile.mappings r).isEmpty
                && (v (buildRowDict mapping_profile.mappings r)).isNone)).length
            + (data_rows.filter
                (fun r => (buildRowDict mapping_profile.mappings r).isEmpty)).length
            = data_rows.length) := by
  constructor
  · intro h
    simp [apply_mapping, h]
  · intro v hv l hl
    simp only [apply_mapping, hv, Except.ok.injEq] at hl
    rw [← hl]
    exact applyMappingRows_length v mapping_profile.mappings data_rows

/-- The target-model constructor of the C3 scenario: never fails. -/
def c3Validate : PyDict → Option Unit := fun _ => some ()

def c3Profile : MappingProfile := ⟨"p", "M", [("a", "b")]⟩

def c3Registry : List (String × (PyDict → Option Unit)) := [("M", c3Validate)]

/-- Counterexample for C3 as stated: one input row (N = 1) in which the
mapped source column is absent, a registry hit, and a constructor that never
fails (K = 0, as the filter count shows).  The claim predicts N − K = 1
entity, but `apply_mapping` returns none: the row is skipped before any
construction attempt. -/
theorem C3_apply_mapping_counterexample :
    apply_mapping [[]] c3Profile c3Registry = .ok ([] : List Unit)
      ∧ ([([] : List (String × String))].filter
          (fun r => !(buildRowDict c3Profile.mappings r).isEmpty
            && (c3Validate (buildRowDict c3Profile.mappings r)).isNone)).length = 0
      ∧ ([] : List Unit).length ≠ [([] : List (String × String))].length - 0 :=
  ⟨rfl, rfl, by decide⟩

/-- Witness for C3's amended theorem: two rows, one carrying the mapped
column and one empty; one entity comes back and 1 + 0 + 1 = 2. -/
theorem C3_apply_mapping_partial_failure_witness :
    apply_mapping [[("a", "x")], []] c3Profile c3Registry = .ok [()]
      ∧ ([()] : List Unit).length
          + ([[("a", "x")], []].filter
              (fun r => !(buildRowDict c3Profile.mappings r).isEmpty
                && (c3Validate (buildRowDict c3Profile.mappings r)).isNone)).length
          + ([[("a", "x")], ([] : List (String × String))].filter
              (fun r => (buildRowDict c3Profile.mappings r).isEmpty)).length
          = ([[("a", "x")], ([] : List (String × String))] : List _).length :=
  ⟨rfl,
    (C3_apply_mapping_partial_failure [[("a", "x")], []] c3Profile c3Registry).2
      c3Validate rfl [()] rfl⟩

/-- Inserting a row that builds no mapped data changes nothing: the
`apply_mapping` loop skips it before any construction attempt. -/
lemma applyMappingRows_skip_empty {α : Type} (v : PyDict → Option α)
    (mappings : List (String × String)) (r : List (String × String))
    (h : buildRowDict mappings r = []) (rows1 rows2 : List (List (String × String))) :
    applyMappingRows v mappings (rows1 ++ r :: rows2)
      = applyMappingRows v mappings (rows1 ++ rows2) := by
  induction rows1 with
  | nil => simp [applyMappingRows, h]
  | cons a as ih =>
    simp only [List.cons_append, applyMappingRows, List.append_eq, ih]

/-- C10: a row in which no mapped source column produced any data (empty
built structure) is skipped entirely: no construction attempt, no output
entity, no exception, and the remaining rows are processed exactly as if the
row were absent. -/
theorem C10_empty_row_skipped {α : Type} (mapping_profile : MappingProfile)
    (available_models : List (String × (PyDict → Option α)))
    (r : List (String × String)) (h : buildRowDict mapping_profile.mappings r = [])
    (rows1 rows2 : List (List (String × String))) :
    apply_mapping (rows1 ++ r :: rows2) mapping_profile available_models
      = apply_mapping (rows1 ++ rows2) mapping_profile available_models := by
  rcases hv : dictGet available_models mapping_profile.target_model with _ | v
  · simp [apply_mapping, hv]
  · simp [apply_mapping, hv,
      applyMappingRows_skip_empty v mapping_profile.mappings r h rows1 rows2]

/-- C10 scenario: same mapping shape, its own registry. -/
def c10Validate : PyDict → Option Unit := fun _ => some ()

def c10Profile : MappingProfile := ⟨"p10", "M", [("a", "b")]⟩

def c10Registry : List (String × (PyDict → Option Unit)) := [("M", c10Validate)]

theorem C10_empty_row_skipped_witness :
    buildRowDict c10Profile.mappings [] = []
      ∧ apply_mapping [[("a", "x")], [], [("a", "y")]] c10Profile c10Registry
          = apply_mapping [[("a", "x")], [("a", "y")]] c10Profile c10Registry :=
  ⟨rfl,
    C10_empty_row_skipped c10Profile c10Registry [] rfl [[("a", "x")]] [[("a", "y")]]⟩

/-- C8: `SAFmonetaryType` rejects every negative value and accepts exactly
0.00; `SAFPTPortugueseVatNumber` rejects 99999999 and 1000000000 and accepts
the two inclusive bounds 100000000 and 999999999. -/
theorem C8_numeric_boundaries :
    (∀ d : PyDecimal, d.coeff < 0 → monetaryValid d = false)
      ∧ monetaryValid ⟨0, 2⟩ = true
      ∧ portugueseVatValid 99999999 = false
      ∧ portugueseVatValid 1000000000 = false
      ∧ portugueseVatValid 100000000 = true
      ∧ portugueseVatValid 999999999 = true := by
  refine ⟨?_, by decide, by decide, by decide, by decide, by decide⟩
  intro d hd
  simp only [monetaryValid]
  simp only [decide_eq_false_iff_not, not_and]
  intro hle
  omega

/-- Witness for C8: the negative amount −0.01 is rejected. -/
theorem C8_numeric_boundaries_witness :
    ((-1 : Int) < 0) ∧ monetaryValid ⟨-1, 2⟩ = false :=
  ⟨by decide, C8_numeric_boundaries.1 ⟨-1, 2⟩ (by decide)⟩

/-- The character of a digit below ten is a digit character. -/
lemma digitChar_isDigit (d : Nat) (h : d < 10) : (digitChar d).isDigit = true := by
  interval_cases d <;> decide

/-- Every character `natDigitsAux` emits is a digit. -/
lemma natDigitsAux_digits (fuel : Nat) :
    ∀ n, ∀ c ∈ natDigitsAux fuel n, c.isDigit = true := by
  induction fuel with
  | zero => intro n c hc; simp [natDigitsAux] at hc
  | succ fuel ih =>
    intro n c hc
    cases n with
    | zero => simp [natDigitsAux] at hc
    | succ m =>
      simp only [natDigitsAux, List.mem_append, List.mem_singleton] at hc
      rcases hc with hc | hc
      · exact ih _ c hc
      · rw [hc]
        exact digitChar_isDigit _ (Nat.mod_lt _ (by norm_num))

/-- `natDigitsAux` emits at most `s` digits for a number below `10 ^ s`. -/
lemma natDigitsAux_length (fuel : Nat) :
    ∀ n s, n ≤ fuel → n < 10 ^ s → (natDigitsAux fuel n).length ≤ s := by
  induction fuel with
  | zero => intro n s _ _; simp [natDigitsAux]
  | succ fuel ih =>
    intro n s hfuel hlt
    cases n with
    | zero => simp [natDigitsAux]
    | succ m =>
      cases s with
      | zero => norm_num at hlt
      | succ s =>
        have h1 : (m + 1) / 10 ≤ fuel := by
          have h2 := Nat.div_lt_self (Nat.succ_pos m) (by norm_num : 1 < 10)
          omega
        have h3 : (m + 1) / 10 < 10 ^ s := by
          rw [Nat.div_lt_iff_lt_mul (by norm_num : 0 < 10)]
          calc m + 1 < 10 ^ (s + 1) := hlt
            _ = 10 ^ s * 10 := by rw [pow_succ]
        have h4 := ih ((m + 1) / 10) s h1 h3
        simp only [natDigitsAux, List.length_append, List.length_singleton]
        omega

/-- Every character of `natDigits n` is a digit. -/
lemma natDigits_digits (n : Nat) : ∀ c ∈ natDigits n, c.isDigit = true :=
  natDigitsAux_digits n n

/-- `natDigits n` has at most `s` digits when `n < 10 ^ s`. -/
lemma natDigits_length (n s : Nat) (h : n < 10 ^ s) : (natDigits n).length ≤ s :=
  natDigitsAux_length n n s (le_refl n) h

/-- Every character of `natChars n` is a digit. -/
lemma natChars_digits (n : Nat) : ∀ c ∈ natChars n, c.isDigit = true := by
  intro c hc
  unfold natChars at hc
  by_cases h : n = 0
  · rw [if_pos h] at hc
    simp at hc
    rw [hc]; decide
  · rw [if_neg h] at hc
    exact natDigits_digits n c hc

/-- Padding keeps every character a digit. -/
lemma padLeftZeros_digits (s : Nat) (cs : List Char) (h : ∀ c ∈ cs, c.isDigit = true) :
    ∀ c ∈ padLeftZeros s cs, c.isDigit = true := by
  intro c hc
  simp only [padLeftZeros, List.mem_append] at hc
  rcases hc with hc | hc
  · rw [List.eq_of_mem_replicate hc]; decide
  · exact h c hc

/-- Padding a list of at most `s` characters yields exactly `s`. -/
lemma padLeftZeros_length (s : Nat) (cs : List Char) (h : cs.length ≤ s) :
    (padLeftZeros s cs).length = s := by
  simp only [padLeftZeros, List.length_append, List.length_replicate]
  omega

/-- A list of digit characters contains no dot. -/
lemma no_dot_of_digits (cs : List Char) (h : ∀ c ∈ cs, c.isDigit = true) : '.' ∉ cs := by
  intro hc
  have := h '.' hc
  simp [Char.isDigit] at this

/-- A list of digit characters contains no comma. -/
lemma no_comma_of_digits (cs : List Char) (h : ∀ c ∈ cs, c.isDigit = true) : ',' ∉ cs := by
  intro hc
  have := h ',' hc
  simp [Char.isDigit] at this

/-- `afterLastDot` on a dot-free list. -/
lemma afterLastDot_of_no_dot (cs : List Char) (h : '.' ∉ cs) : afterLastDot cs = none := by
  induction cs with
  | nil => rfl
  | cons c rest ih =>
    simp only [List.mem_cons, not_or] at h
    simp [afterLastDot, ih h.2, Ne.symm h.1]

/-- `afterLastDot` finds the suffix after the only dot region. -/
lemma afterLastDot_append (as bs : List Char) (h : '.' ∉ bs) :
    afterLastDot (as ++ '.' :: bs) = some bs := by
  induction as with
  | nil => simp [afterLastDot, afterLastDot_of_no_dot bs h]
  | cons a as ih => simp [afterLastDot, ih]

/-- C7 as amended: the generator lexicalizes a monetary `Decimal` with
Python `str`, which never inserts a thousands separator and renders exactly
the stored number of decimal places — two only when the stored scale is two
(e.g. `Decimal("0.00")` becomes "0.00"), no decimal point at all when the
stored scale is zero (`Decimal("0")` becomes "0").  The claim's fixed
two-decimal lexical form is therefore produced exactly for scale-2 values,
not for every valid monetary value. -/
theorem C7_monetary_lexicalization_amended (d : PyDecimal)
    (hvalid : monetaryValid d = true) :
    noThousandsSep (pyDecimalStr d) = true
      ∧ fracLen (pyDecimalStr d) = (if d.scale = 0 then none else some d.scale)
      ∧ (hasExactlyTwoDecimals (pyDecimalStr d) = true ↔ d.scale = 2) := by
  simp only [monetaryValid, Bool.decide_and, Bool.and_eq_true, decide_eq_true_eq] at hvalid
  obtain ⟨hcoeff, hscale⟩ := hvalid
  have hsign : ¬(d.coeff < 0) := by omega
  cases hs : d.scale with
  | zero =>
    have hchars : (pyDecimalStr d).toList = natChars d.coeff.natAbs := by
      show pyDecimalChars d = natChars d.coeff.natAbs
      simp [pyDecimalChars, hs, hsign]
    have hdigits : ∀ c ∈ (pyDecimalStr d).toList, c.isDigit = true := by
      rw [hchars]; exact natChars_digits _
    have hald : afterLastDot (pyDecimalStr d).toList = none :=
      afterLastDot_of_no_dot _ (no_dot_of_digits _ hdigits)
    refine ⟨?_, ?_, ?_⟩
    · simp only [noThousandsSep, decide_eq_true_eq]
      exact no_comma_of_digits _ hdigits
    · simp only [fracLen, hald]
      simp
    · simp only [hasExactlyTwoDecimals, fracLen, hald]
      simp
  | succ s =>
    set m := d.coeff.natAbs with hm
    have hfrac : (m % 10 ^ (s + 1)) < 10 ^ (s + 1) :=
      Nat.mod_lt _ (Nat.pos_pow_of_pos _ (by norm_num))
    have hfraclen : (natDigits (m % 10 ^ (s + 1))).length ≤ s + 1 :=
      natDigits_length _ _ hfrac
    set pad := padLeftZeros (s + 1) (natDigits (m % 10 ^ (s + 1))) with hpad
    have hpaddigits : ∀ c ∈ pad, c.isDigit = true :=
      padLeftZeros_digits _ _ (natDigits_digits _)
    have hpadlen : pad.length = s + 1 := padLeftZeros_length _ _ hfraclen
    have hintdigits : ∀ c ∈ natChars (m / 10 ^ (s + 1)), c.isDigit = true :=
      natChars_digits _
    have hchars : (pyDecimalStr d).toList = natChars (m / 10 ^ (s + 1)) ++ '.' :: pad := by
      show pyDecimalChars d = _
      simp [pyDecimalChars, hs, hsign, hpad, hm]
    have hfl : fracLen (pyDecimalStr d) = some (s + 1) := by
      rw [fracLen, hchars, afterLastDot_append _ _ (no_dot_of_digits _ hpaddigits)]
      simp [hpadlen]
    refine ⟨?_, ?_, ?_⟩
    · simp only [noThousandsSep, decide_eq_true_eq]
      rw [hchars]
      simp only [List.mem_append, List.mem_cons, not_or]
      exact ⟨no_comma_of_digits _ hintdigits, by decide, no_comma_of_digits _ hpaddigits⟩
    · simp [hfl]
    · simp [hasExactlyTwoDecimals, hfl]

/-- The concrete `GeneralLedgerEntries` of the C7 counterexample: valid
monetary totals stored with scale 0. -/
def c7GLE : GeneralLedgerEntries := ⟨0, ⟨0, 0⟩, ⟨0, 0⟩, some []⟩

/-- Counterexample for C7 as stated: `Decimal("0")` is a valid
`SAFmonetaryType` value, yet the generator renders it as "0" — no decimal
point, not the claimed two-decimal form "0.00". -/
theorem C7_monetary_two_decimals_counterexample :
    monetaryValid ⟨0, 0⟩ = true
      ∧ pyDecimalStr ⟨0, 0⟩ = "0"
      ∧ hasExactlyTwoDecimals (pyDecimalStr ⟨0, 0⟩) = false
      ∧ genGLETotalsFragment c7GLE
          = "<NumberOfEntries>0</NumberOfEntries><TotalDebit>0</TotalDebit><TotalCredit>0</TotalCredit>" := by
  refine ⟨by decide, by decide, by decide, by decide⟩

/-- Witness for C7's amended theorem at `Decimal("0.00")`: two decimal
places, no thousands separator. -/
theorem C7_monetary_lexicalization_amended_witness :
    monetaryValid ⟨0, 2⟩ = true
      ∧ (noThousandsSep (pyDecimalStr ⟨0, 2⟩) = true
          ∧ fracLen (pyDecimalStr ⟨0, 2⟩) = (if (2 : Nat) = 0 then none else some 2)
          ∧ (hasExactlyTwoDecimals (pyDecimalStr ⟨0, 2⟩) = true ↔ (2 : Nat) = 2)) :=
  ⟨by decide, C7_monetary_lexicalization_amended ⟨0, 2⟩ (by decide)⟩

end SAFT
